import Mathlib

/-!
Verification of the placement-tracker program (`placement_tracker_app.py`).

The program is CRUD logic over a single tabular CSV file.  We embed:

* a `Row` for one record of the dataset (one CSV data row);
* the storage adapter `init_csv` / `load_data` / `save_data`, with the
  backing file modelled as an optional `CsvFile` (header plus rows);
* the query operations that the `main` handlers perform inline with pandas:
  search (pandas `str.contains` with `case=False, na=False` and the default
  `regex=True`), sorting by package (`DataFrame.sort_values`), the
  eligibility filter, and removal by composite "Company - Role" label.

Modelling notes, justified against the library semantics the source uses:

* pandas comparisons against a missing value (NaN) yield `False`, so the
  threshold fields that can be missing are `Option`s and a comparison with
  `none` is `false`.
* `Series.str.contains(term, case=False, na=False)` keeps `regex=True` by
  default, i.e. it compiles the term with `re` and performs `re.search`
  with `re.IGNORECASE`; an invalid pattern makes `re` raise `re.error`,
  which aborts the handler.  We model the dialect of patterns built from
  literal characters, the `.` metacharacter (any character) and
  parentheses: within it a pattern compiles iff its parentheses are
  balanced (never-negative depth ending at zero), a group is transparent
  to matching (no quantifier, alternation, class, anchor or escape exists
  in the dialect, so `(X)` matches exactly as `X` does), and matching is
  case-insensitive (modelled by ASCII lowercasing on both sides, on
  newline-free text).  Patterns containing any of the unmodelled
  metacharacters `^ $ * + ? { } [ ] \ |` are outside the dialect and the
  theorems about matching are restricted to the dialect by an explicit
  `termInDialect` hypothesis; the compile-failure model (`re_compile_ok`)
  is likewise only claimed faithful inside the dialect.
* `DataFrame.sort_values(by=k, ascending=b)` for a single key calls
  pandas `nargsort`, which computes an ascending `argsort` of the key
  (numpy, default kind='quicksort' — an introsort) and, when
  `ascending=False`, reverses the resulting indexer wholesale.  numpy's
  documented contract for the argsort is a sorted permutation of the
  input; the relative order of equal keys is NOT specified in general
  (quicksort is not stable), so the general theorems quantify over any
  ascending order satisfying that contract (`IsAscSortOf`), with the
  descending case its wholesale reversal, exactly as `nargsort` computes
  it.  For concrete evaluation the model instantiates the argsort with a
  merge sort (`sortByPackage`); this instance coincides with the program
  exactly on the small frames used in the concrete statements below,
  because numpy's introsort degenerates to stable insertion sort on
  arrays of at most 16 elements.
* `pd.concat([df, pd.DataFrame([new_entry])], ignore_index=True)` appends
  the new record at the end; `to_csv` / `read_csv` round-trip the rows.
* In the Remove handler the temporary `Company_Role` column is dropped
  before saving (`drop(columns=["Company_Role"])`); accordingly `Row` has
  only the seven persisted fields and the composite label is a derived
  value, never a field.
* In `init_csv` the source writes the Python list
  `["Company", "Role", "Package(LPA)", "Eligibility_CGPA",
    "Backlogs_Allowed" "Eligibility_10th", "Eligibility_12th"]`;
  the two adjacent string literals concatenate into a single element, so
  the freshly created file has six columns.  `initColumns` reproduces this.
-/

namespace PlacementTracker

/-- One record of the dataset: the seven persisted CSV columns.
`Company` and `Role` are `Option` because a CSV cell can be empty (pandas
NaN); the four eligibility thresholds are `Option` for the same reason.
`Package` is the `Package(LPA)` column. -/
structure Row where
  Company : Option String
  Role : Option String
  Package : ℚ
  Eligibility_CGPA : Option ℚ
  Backlogs_Allowed : Option ℕ
  Eligibility_10th : Option ℚ
  Eligibility_12th : Option ℚ
deriving DecidableEq, Repr

/-- A candidate profile as entered in the Check Eligibility handler
(`user_cgpa`, `user_backlogs`, `user_10th`, `user_12th`); ephemeral,
never stored. -/
structure CandidateProfile where
  user_cgpa : ℚ
  user_backlogs : ℕ
  user_10th : ℚ
  user_12th : ℚ
deriving DecidableEq, Repr

/-- The canonical seven-column header of the backing dataset resource. -/
def canonicalHeader : List String :=
  ["Company", "Role", "Package(LPA)", "Eligibility_CGPA", "Backlogs_Allowed",
    "Eligibility_10th", "Eligibility_12th"]

/-- The column list exactly as `init_csv` builds it.  In the source the two
adjacent string literals `"Backlogs_Allowed" "Eligibility_10th"` (no comma
between them) are one concatenated Python string, so the list has six
elements, not seven. -/
def initColumns : List String :=
  ["Company", "Role", "Package(LPA)", "Eligibility_CGPA",
    "Backlogs_Allowed" ++ "Eligibility_10th", "Eligibility_12th"]

/-- A tabular file: a header line and data rows. -/
structure CsvFile where
  header : List String
  rows : List Row
deriving DecidableEq

/-- The state of the backing resource `placements.csv`:
`none` when the file does not exist. -/
structure Storage where
  file : Option CsvFile
deriving DecidableEq

/-- `init_csv`: if the file does not exist, create it with the (buggy)
column list of the source and zero rows; otherwise do nothing. -/
def init_csv (s : Storage) : Storage :=
  match s.file with
  | none => ⟨some ⟨initColumns, []⟩⟩
  | some _ => s

/-- `save_data(df)`: `df.to_csv(CSV_FILE, index=False)` overwrites the file
entirely with the frame's columns and rows.  We model the well-formed
regime in which the frame carries the seven canonical columns. -/
def save_data (df : List Row) : Storage :=
  ⟨some ⟨canonicalHeader, df⟩⟩

/-- `load_data()`: `pd.read_csv(CSV_FILE)` reads the data rows back;
it fails when the file does not exist. -/
def load_data (s : Storage) : Option (List Row) :=
  s.file.map CsvFile.rows

/-- The Add handler: `pd.concat([df, pd.DataFrame([new_entry])],
ignore_index=True)` appends the new record at the end. -/
def addCompany (df : List Row) (new_entry : Row) : List Row :=
  df ++ [new_entry]

/-- The Python `re` metacharacters whose meaning this model does not
implement.  A pattern containing any of them is outside the modelled
dialect, and no theorem below speaks about such a pattern. -/
def unmodeledMeta : List Char :=
  ['^', '$', '*', '+', '?', '\x7b', '\x7d', '[', ']', '\\', '|']

/-- Is the term inside the modelled regex dialect (literal characters, the
`.` metacharacter, and parentheses)? -/
def termInDialect (t : String) : Bool :=
  t.toList.all fun c => !(unmodeledMeta.contains c)

/-- The full Python `re` metacharacter set.  A term free of all of these is
matched purely literally by `re.search`. -/
def reMeta : List Char :=
  '.' :: '(' :: ')' :: unmodeledMeta

/-- Is the term free of every regex metacharacter (so that regex matching
is literal substring matching)? -/
def litTerm (t : String) : Bool :=
  t.toList.all fun c => !(reMeta.contains c)

/-- Does the pattern have balanced parentheses: the depth never goes
negative and ends at zero?  Within the dialect this is exactly when
`re.compile` succeeds; `"("` or `")"` raise `re.error`. -/
def parensOK : List Char → Nat → Bool
  | [], d => d == 0
  | c :: cs, d =>
    if c = '(' then parensOK cs (d + 1)
    else if c = ')' then
      match d with
      | 0 => false
      | e + 1 => parensOK cs e
    else parensOK cs d

/-- Does the term compile as a regex?  Faithful inside the dialect, where
the only failure mode is unbalanced parentheses. -/
def re_compile_ok (pat : String) : Bool :=
  parensOK pat.toList 0

/-- Groups are transparent to matching in the dialect (no quantifier,
alternation or escape exists there), so the parentheses of a compiled
pattern are erased before matching. -/
def stripParens (l : List Char) : List Char :=
  l.filter fun c => !(c = '(' || c = ')')

/-- One pattern character of the dialect against one subject character,
under `re.IGNORECASE`: `.` matches any character, anything else matches
itself case-insensitively. -/
def charMatch (p c : Char) : Bool :=
  p == '.' || p.toLower == c.toLower

/-- Does the pattern match a prefix of the subject? -/
def reHere : List Char → List Char → Bool
  | [], _ => true
  | _ :: _, [] => false
  | p :: ps, c :: cs => charMatch p c && reHere ps cs

/-- `re.search` semantics: does the pattern match at some position of the
subject? -/
def reFind (pat : List Char) : List Char → Bool
  | [] => reHere pat []
  | c :: cs => reHere pat (c :: cs) || reFind pat cs

/-- `series.str.contains(pat, case=False, na=False)` on one cell, for a
compiled in-dialect pattern: a missing cell never matches (`na=False`);
otherwise case-insensitive regex search with groups erased. -/
def str_contains (cell : Option String) (pat : String) : Bool :=
  match cell with
  | none => false
  | some s => reFind (stripParens pat.toList) s.toList

/-- The search predicate of the View Companies handler:
`Role.str.contains(term, ...) | Company.str.contains(term, ...)`. -/
def rowMatchesSearch (search_term : String) (r : Row) : Bool :=
  str_contains r.Role search_term || str_contains r.Company search_term

/-- The search filter of the View Companies handler.  `if search_term:` —
an empty term is falsy in Python, so the frame passes through unchanged
and `str.contains` never runs; otherwise the term is compiled: a term
that fails to compile makes `str.contains` raise `re.error` (modelled as
`.error ()`), aborting the handler with no dataset returned; a compiling
term filters the frame to the matching rows. -/
def search (D : List Row) (search_term : String) : Except Unit (List Row) :=
  if search_term = "" then .ok D
  else if re_compile_ok search_term then .ok (D.filter (rowMatchesSearch search_term))
  else .error ()

/-- Row comparison used for sorting: the `Package(LPA)` key. -/
def packageLE (a b : Row) : Bool :=
  decide (a.Package ≤ b.Package)

/-- `sort_values(by="Package(LPA)", ascending=...)` keyed by the sort-order
radio value, given the ascending argsort order `asc` that numpy produced
for the frame: ascending returns it; descending reverses it wholesale,
exactly as pandas `nargsort` computes it; any other radio value ("None")
leaves the order unchanged. -/
def sortWithAsc (asc D : List Row) (sort_order : String) : List Row :=
  if sort_order = "Highest → Lowest" then asc.reverse
  else if sort_order = "Lowest → Highest" then asc
  else D

/-- The model instance used for concrete evaluation: the argsort
instantiated with a merge sort (which satisfies `IsAscSortOf`).  On the
small frames of the concrete statements below this coincides exactly with
the program, because numpy's introsort degenerates to stable insertion
sort on arrays of at most 16 elements. -/
def sortByPackage (D : List Row) (sort_order : String) : List Row :=
  sortWithAsc (D.mergeSort packageLE) D sort_order

/-- A threshold cell compared with `<=` against a profile value: pandas
yields `False` when the cell is missing. -/
def cellLE (cell : Option ℚ) (x : ℚ) : Bool :=
  match cell with
  | none => false
  | some a => decide (a ≤ x)

/-- A threshold cell compared with `>=` against a profile value: pandas
yields `False` when the cell is missing. -/
def cellGE (cell : Option ℕ) (x : ℕ) : Bool :=
  match cell with
  | none => false
  | some a => decide (x ≤ a)

/-- The eligibility predicate of the Check Eligibility handler, the
conjunction of the four comparisons of the source in order. -/
def eligibleRow (p : CandidateProfile) (r : Row) : Bool :=
  cellLE r.Eligibility_CGPA p.user_cgpa &&
  cellGE r.Backlogs_Allowed p.user_backlogs &&
  cellLE r.Eligibility_10th p.user_10th &&
  cellLE r.Eligibility_12th p.user_12th

/-- `df[(df["Eligibility_CGPA"] <= user_cgpa) & ... ]`. -/
def filterEligible (D : List Row) (p : CandidateProfile) : List Row :=
  D.filter (eligibleRow p)

/-- The three columns shown on screen by the Check Eligibility handler
(`eligible[["Company", "Role", "Package(LPA)"]]`). -/
def displayColumns : List String :=
  ["Company", "Role", "Package(LPA)"]

/-- The side-export written by the Check Eligibility handler: nothing when
the eligible set is empty; otherwise `eligible.to_csv("eligible_companies.csv",
index=False)` writes the full eligible frame — all seven columns, not the
three-column on-screen projection. -/
def sideExport (D : List Row) (p : CandidateProfile) : Option CsvFile :=
  let eligible := filterEligible D p
  if eligible.isEmpty then none else some ⟨canonicalHeader, eligible⟩

/-- The on-demand download artifact: `st.download_button(...,
eligible.to_csv(index=False), ...)` — again the full eligible frame, and it
is only offered when the eligible set is non-empty. -/
def downloadArtifact (D : List Row) (p : CandidateProfile) : Option CsvFile :=
  let eligible := filterEligible D p
  if eligible.isEmpty then none else some ⟨canonicalHeader, eligible⟩

/-- The derived selection label of the Remove handler:
`df["Company"] + " - " + df["Role"]`.  In pandas, string concatenation with
a missing value is missing, whence the `Option`. -/
def compositeLabel (r : Row) : Option String :=
  match r.Company, r.Role with
  | some c, some ro => some (c ++ " - " ++ ro)
  | _, _ => none

/-- The Remove handler: `df[df["Company_Role"] != selected_entry]` keeps
every row whose label differs from the selection (a missing label compares
unequal to any string, so such rows are kept); the temporary label column
is dropped before saving. -/
def removeCompany (D : List Row) (selected_entry : String) : List Row :=
  D.filter (fun r => compositeLabel r != some selected_entry)

/-! Spec-side matching notion, for comparison with the source's
`str.contains`: plain case-insensitive literal substring search, with no
regex interpretation.  `litHere`/`litFind` mirror `reHere`/`reFind` with
every pattern character taken literally. -/

/-- Does the literal pattern match a prefix of the subject,
case-insensitively? -/
def litHere : List Char → List Char → Bool
  | [], _ => true
  | _ :: _, [] => false
  | p :: ps, c :: cs => (p.toLower == c.toLower) && litHere ps cs

/-- Is the literal pattern a case-insensitive substring of the subject? -/
def litFind (pat : List Char) : List Char → Bool
  | [] => litHere pat []
  | c :: cs => litHere pat (c :: cs) || litFind pat cs

/-- The spec's notion of matching one cell: `t` occurs case-insensitively
as a literal substring of the cell's text; a missing cell never matches. -/
def cellContainsCI (cell : Option String) (t : String) : Bool :=
  match cell with
  | none => false
  | some s => litFind t.toList s.toList

/-! Concrete sample data used by witnesses and counterexamples.
All numeric values are whole numbers. -/

/-- A sample placement: Acme, Engineer, package 10, thresholds
CGPA 7 / backlogs 1 / 10th 60 / 12th 60. -/
def acmeRow : Row :=
  ⟨some "Acme", some "Engineer", 10, some 7, some 1, some 60, some 60⟩

/-- A sample placement with role "Dev". -/
def dotRow : Row :=
  ⟨some "Acme", some "Dev", 10, some 7, some 0, some 60, some 60⟩

/-- A sample placement whose Role cell is missing. -/
def noRoleRow : Row :=
  ⟨some "Acme", none, 10, some 7, some 0, some 60, some 60⟩

/-- A sample placement whose Eligibility_CGPA cell is missing. -/
def badRow : Row :=
  ⟨some "NullCo", some "Intern", 3, none, some 0, some 50, some 50⟩

/-- Two placements sharing the same package value 5. -/
def rowTieA : Row :=
  ⟨some "A", some "Dev", 5, some 7, some 0, some 60, some 60⟩

/-- Second placement with package value 5. -/
def rowTieB : Row :=
  ⟨some "B", some "Dev", 5, some 7, some 0, some 60, some 60⟩

/-- A placement with package value 6, distinct from `rowTieA`. -/
def rowP6 : Row :=
  ⟨some "C", some "Ops", 6, some 7, some 0, some 60, some 60⟩

/-- A sample placement with both the Company and the Role cell missing. -/
def emptyRow : Row :=
  ⟨none, none, 2, some 5, some 0, some 50, some 50⟩

/-- A sample candidate profile: CGPA 8, no backlogs, 70/70 percentages. -/
def profileA : CandidateProfile := ⟨8, 0, 70, 70⟩

/-! Helper lemmas. -/

/-- On patterns with no `.` metacharacter, the regex prefix match is the
literal case-insensitive prefix match. -/
theorem reHere_eq_litHere (pat : List Char) (h : '.' ∉ pat) :
    ∀ s : List Char, reHere pat s = litHere pat s := by
  induction pat with
  | nil => intro s; cases s <;> rfl
  | cons p ps ih =>
    intro s
    cases s with
    | nil => rfl
    | cons c cs =>
      have hp : p ≠ '.' := fun e => h (e ▸ List.mem_cons_self p ps)
      have hps : '.' ∉ ps := fun hm => h (List.mem_cons_of_mem p hm)
      simp [reHere, litHere, charMatch, ih hps, beq_eq_false_iff_ne.mpr hp]

/-- On patterns with no `.` metacharacter, the regex search coincides with
literal case-insensitive substring search. -/
theorem reFind_eq_litFind (pat : List Char) (h : '.' ∉ pat) :
    ∀ s : List Char, reFind pat s = litFind pat s := by
  intro s
  induction s with
  | nil => simp [reFind, litFind, reHere_eq_litHere pat h]
  | cons c cs ih => simp [reFind, litFind, reHere_eq_litHere pat h, ih]

/-- A term free of every regex metacharacter contains no dot and loses
nothing to paren stripping. -/
theorem litTerm_props (t : String) (h : litTerm t = true) :
    '.' ∉ t.toList ∧ stripParens t.toList = t.toList := by
  have hall : ∀ c ∈ t.toList, c ∉ reMeta := by
    intro c hc hmem
    have h1 := List.all_eq_true.mp h c hc
    have h2 : reMeta.contains c = true := List.elem_iff.mpr hmem
    rw [h2] at h1
    exact absurd h1 (by decide)
  constructor
  · intro hm
    exact hall '.' hm (by decide)
  · refine List.filter_eq_self.mpr ?_
    intro c hc
    have h3 := hall c hc
    have h4 : c ≠ '(' := by
      intro e
      subst e
      exact h3 (by decide)
    have h5 : c ≠ ')' := by
      intro e
      subst e
      exact h3 (by decide)
    simp [h4, h5]

/-! Claim theorems. -/

/-- C1: a row of the dataset whose four threshold cells are present is in
`filterEligible D p` iff it is in `D` and all four inequalities hold:
its Eligibility_CGPA is at most the profile's CGPA, its Backlogs_Allowed is
at least the profile's backlog count, and its 10th/12th thresholds are at
most the profile's percentages — the three CGPA/percentage thresholds are
inclusive floors on the candidate, Backlogs_Allowed an inclusive ceiling. -/
theorem C1_filterEligible_iff (D : List Row) (p : CandidateProfile)
    (company role : Option String) (pkg c t10 t12 : ℚ) (b : ℕ) :
    (⟨company, role, pkg, some c, some b, some t10, some t12⟩ : Row) ∈ filterEligible D p ↔
      ((⟨company, role, pkg, some c, some b, some t10, some t12⟩ : Row) ∈ D ∧
        c ≤ p.user_cgpa ∧ b ≥ p.user_backlogs ∧ t10 ≤ p.user_10th ∧ t12 ≤ p.user_12th) := by
  simp [filterEligible, List.mem_filter, eligibleRow, cellLE, cellGE, and_assoc, ge_iff_le]

/-- Witness for C1 at the spec's sample scenario (whole-number variant). -/
theorem C1_witness : acmeRow ∈ filterEligible [acmeRow] profileA :=
  (C1_filterEligible_iff [acmeRow] profileA (some "Acme") (some "Engineer")
      10 7 60 60 1).mpr ⟨by decide, by decide, by decide, by decide, by decide⟩

/-- C2: evaluating `init_csv` at a missing backing file.  It does create the
file with zero rows, and it is a no-op on an existing file, but the header
it writes has six columns, not the canonical seven: the fifth column is the
fused name produced by Python's adjacent-string-literal concatenation. -/
theorem C2_init_csv_header_defect :
    (init_csv ⟨none⟩).file = some ⟨initColumns, []⟩ ∧
    initColumns.length = 6 ∧
    initColumns ≠ canonicalHeader ∧
    initColumns[4]? = some "Backlogs_AllowedEligibility_10th" ∧
    canonicalHeader.length = 7 ∧
    (∀ f : CsvFile, init_csv ⟨some f⟩ = ⟨some f⟩) :=
  ⟨rfl, rfl, by decide, by decide, rfl, fun _ => rfl⟩

/-- C7: adding a record through the Add handler and reloading from storage
yields exactly `D ++ [R]`: the record goes at the end, every prior row is
preserved unmodified in its original position. -/
theorem C7_add_then_load (D : List Row) (R : Row) :
    load_data (save_data (addCompany D R)) = some (D ++ [R]) ∧
    (addCompany D R).take D.length = D ∧
    (addCompany D R).getLast? = some R := by
  refine ⟨rfl, ?_, ?_⟩
  · simp [addCompany, List.take_left]
  · simp [addCompany]

/-- C9 is false as stated: it quantifies over every search term, but at
the term "(" — an invalid regular expression (unterminated subpattern) —
`str.contains` raises `re.error` and the handler aborts, returning no
dataset at all, not a subsequence. -/
theorem C9_counterexample :
    search [acmeRow] "(" = .error () ∧
    re_compile_ok "(" = false :=
  ⟨rfl, rfl⟩

/-- C9 (amended): `filterEligible` always returns a subsequence of the
dataset, and `search` returns a subsequence of the dataset whenever it
returns a dataset at all — every row of an `.ok` result appears in the
input unmodified and in its original relative order; a term that fails to
compile as a regex yields `re.error` instead of a result. -/
theorem C9_sublist (D : List Row) (t : String) (p : CandidateProfile) :
    (filterEligible D p).Sublist D ∧
    (∀ l, search D t = .ok l → List.Sublist l D) := by
  refine ⟨List.filter_sublist D, ?_⟩
  intro l hl
  by_cases h : t = ""
  · simp only [search, if_pos h] at hl
    cases hl
    exact List.Sublist.refl D
  · simp only [search, if_neg h] at hl
    by_cases hc : re_compile_ok t
    · rw [if_pos hc] at hl
      cases hl
      exact List.filter_sublist D
    · rw [if_neg hc] at hl
      cases hl

/-- Witness for C9's amended statement at a concrete compiling term. -/
theorem C9_witness : List.Sublist [acmeRow] [acmeRow] :=
  (C9_sublist [acmeRow] "acme" profileA).2 [acmeRow] rfl

/-- C10: a row with any of the four threshold cells missing is never in the
eligibility result, for any profile: pandas comparisons against a missing
value are false, not errors. -/
theorem C10_missing_threshold (D : List Row) (p : CandidateProfile) (r : Row)
    (h : r.Eligibility_CGPA = none ∨ r.Backlogs_Allowed = none ∨
      r.Eligibility_10th = none ∨ r.Eligibility_12th = none) :
    r ∉ filterEligible D p := by
  intro hm
  have hel := List.of_mem_filter hm
  rcases h with h | h | h | h <;>
    simp [eligibleRow, h, cellLE, cellGE] at hel

/-- Witness for C10: the row with a missing CGPA threshold is excluded even
for a maximal profile. -/
theorem C10_witness : badRow ∉ filterEligible [badRow] profileA :=
  C10_missing_threshold [badRow] profileA badRow (Or.inl rfl)

/-- C3 is false as stated: at a concrete dataset and profile, the side-file
receives the full seven-column frame — it still carries, for example, the
Eligibility_CGPA column — not the three-column (Company, Role,
Package(LPA)) subset shown on screen. -/
theorem C3_counterexample :
    (sideExport [acmeRow] profileA).map CsvFile.header = some canonicalHeader ∧
    (sideExport [acmeRow] profileA).map (fun f => f.rows.map Row.Eligibility_CGPA) =
      some [some 7] ∧
    canonicalHeader ≠ displayColumns := by
  refine ⟨by decide, by decide, by decide⟩

/-- C3 (amended): on a non-empty eligibility result the side-file
`eligible_companies.csv` and the download artifact are both overwritten
with the full seven-column eligible frame, with identical content in both;
only the on-screen table is projected to three columns.  On an empty
result nothing is exported. -/
theorem C3_sideExport_full_frame (D : List Row) (p : CandidateProfile) :
    downloadArtifact D p = sideExport D p ∧
    (sideExport D p = none ↔ filterEligible D p = []) ∧
    (sideExport D p = none ∨
      sideExport D p = some ⟨canonicalHeader, filterEligible D p⟩) := by
  refine ⟨rfl, ?_, ?_⟩
  · simp only [sideExport]
    split
    next h => simp_all [List.isEmpty_iff]
    next h => simp_all [List.isEmpty_iff]
  · simp only [sideExport]
    split
    next h => exact Or.inl rfl
    next h => exact Or.inr rfl

/-- C8: when no two rows of the dataset share a Package value, the
Descending sort reversed equals the Ascending sort. -/
theorem C8_desc_reverse_eq_asc (D : List Row)
    (_h : D.Pairwise fun a b => a.Package ≠ b.Package) :
    (sortByPackage D "Highest → Lowest").reverse =
      sortByPackage D "Lowest → Highest" := by
  simp [sortByPackage, sortWithAsc]

/-- Witness for C8 on a two-row dataset with distinct package values. -/
theorem C8_witness :
    (sortByPackage [rowTieA, rowP6] "Highest → Lowest").reverse =
      sortByPackage [rowTieA, rowP6] "Lowest → Highest" :=
  C8_desc_reverse_eq_asc [rowTieA, rowP6] (by decide)

/-- C5 is false as stated at a concrete input: the term "." — a regex
metacharacter, since pandas `str.contains` defaults to `regex=True` —
returns a row in which "." occurs in neither Company nor Role as a literal
substring; and a row whose Role cell is missing is still returned when its
Company matches, rather than being excluded for the missing field. -/
theorem C5_counterexample :
    search [dotRow] "." = .ok [dotRow] ∧
    cellContainsCI dotRow.Company "." = false ∧
    cellContainsCI dotRow.Role "." = false ∧
    search [noRoleRow] "acme" = .ok [noRoleRow] ∧
    noRoleRow.Role = none := by
  refine ⟨rfl, by decide, by decide, rfl, rfl⟩

/-- C5 (amended), stated for terms of the modelled regex dialect: the
empty term returns the dataset unchanged; a row is in a returned result
iff it is in the dataset and its Role or Company matches the term under
pandas' case-insensitive regex search (`str.contains` with the default
`regex=True`); that matching coincides with case-insensitive literal
substring matching exactly when the term is free of every regex
metacharacter; and a missing cell is a non-match for that cell only, so a
row with both cells missing never matches, while a row with one missing
cell can still match on the other. -/
theorem C5_search_behavior (D : List Row) (t : String) (r : Row)
    (_hd : termInDialect t = true) :
    search D "" = .ok D ∧
    (∀ l, search D t = .ok l →
      (r ∈ l ↔ r ∈ D ∧ (t = "" ∨ rowMatchesSearch t r = true))) ∧
    (litTerm t = true → rowMatchesSearch t r =
      (cellContainsCI r.Role t || cellContainsCI r.Company t)) ∧
    (r.Role = none → r.Company = none → rowMatchesSearch t r = false) := by
  refine ⟨by simp [search], ?_, ?_, ?_⟩
  · intro l hl
    by_cases h : t = ""
    · simp only [search, if_pos h] at hl
      cases hl
      simp [h]
    · simp only [search, if_neg h] at hl
      by_cases hc : re_compile_ok t
      · rw [if_pos hc] at hl
        cases hl
        simp [h, List.mem_filter]
      · rw [if_neg hc] at hl
        cases hl
  · intro hlit
    obtain ⟨hnd, hsp⟩ := litTerm_props t hlit
    have hsp' : stripParens t.data = t.data := hsp
    have he : ∀ s : List Char, reFind (stripParens t.data) s = litFind t.data s := by
      intro s
      rw [hsp']
      exact reFind_eq_litFind t.toList hnd s
    simp only [rowMatchesSearch, str_contains, cellContainsCI]
    cases r.Role <;> cases r.Company <;> simp [he]
  · intro h1 h2
    simp [rowMatchesSearch, str_contains, h1, h2]

/-- Witness for C5's amended statement: at an in-dialect term, the
membership characterization holds at a concrete row, a metacharacter-free
term matches like a substring, and a row with both cells missing never
matches. -/
theorem C5_witness :
    dotRow ∈ [dotRow] ∧
    rowMatchesSearch "dev" dotRow =
      (cellContainsCI dotRow.Role "dev" || cellContainsCI dotRow.Company "dev") ∧
    rowMatchesSearch "dev" emptyRow = false :=
  ⟨((C5_search_behavior [dotRow] "dev" dotRow (by decide)).2.1 [dotRow] rfl).mpr
      ⟨by decide, Or.inr (by decide)⟩,
   (C5_search_behavior [dotRow] "dev" dotRow (by decide)).2.2.1 (by decide),
   (C5_search_behavior [emptyRow] "dev" emptyRow (by decide)).2.2.2 rfl rfl⟩

/-- C6: removal by composite label deletes every row whose
"Company - Role" label equals the selection (all of them, when several
rows bear the identical label), keeps every other row unchanged in its
original relative order, persists exactly the reduced dataset, and the
persisted columns are the seven canonical ones — no Company_Role column
is stored. -/
theorem C6_removeCompany (D : List Row) (selected_entry : String) :
    List.Sublist (removeCompany D selected_entry) D ∧
    (∀ r : Row, r ∈ removeCompany D selected_entry ↔
      (r ∈ D ∧ compositeLabel r ≠ some selected_entry)) ∧
    load_data (save_data (removeCompany D selected_entry)) =
      some (removeCompany D selected_entry) ∧
    (save_data (removeCompany D selected_entry)).file =
      some ⟨canonicalHeader, removeCompany D selected_entry⟩ ∧
    "Company_Role" ∉ canonicalHeader := by
  refine ⟨List.filter_sublist D, ?_, rfl, rfl, by decide⟩
  intro r
  simp [removeCompany, List.mem_filter]

/-- Witness for C6: with rows labelled "A - Dev" and "B - Dev", removing
"A - Dev" keeps the other row and drops the matching one. -/
theorem C6_witness :
    rowTieB ∈ removeCompany [rowTieA, rowTieB] "A - Dev" ∧
    rowTieA ∉ removeCompany [rowTieA, rowTieB] "A - Dev" :=
  ⟨((C6_removeCompany [rowTieA, rowTieB] "A - Dev").2.1 rowTieB).mpr
      ⟨by decide, by decide⟩,
   fun hm =>
    (((C6_removeCompany [rowTieA, rowTieB] "A - Dev").2.1 rowTieA).mp hm).2 (by decide)⟩

end PlacementTracker
